import Mathlib

/-!
Verification development for the MediGuide repository: a shallow embedding of
the RAG chat service (main.py, database.py, memory_llm.py) together with
theorems settling the specification claims about it.
-/

deriving instance DecidableEq for Except

namespace MediGuide

/-- A chat message as stored in MongoDB: role, content and a timestamp
(datetime.utcnow() modelled as an abstract tick). -/
structure Message where
  role : String
  content : String
  timestamp : Nat
deriving DecidableEq

/-- A conversation document in the conversations collection (database.py):
string id (str of the ObjectId), owning username, title, message list and
creation time. -/
structure Conversation where
  id : String
  username : String
  title : String
  messages : List Message
  created_at : Nat
deriving DecidableEq

/-- The conversations collection, in insertion order. -/
abbrev ConversationsDB := List Conversation

/-- database.get_conversation_by_id: find_one filtering on both the _id and
the username, so only the owner can retrieve the conversation. -/
def get_conversation_by_id (db : ConversationsDB) (conversation_id username : String) : Option Conversation :=
  db.find? (fun c => c.id == conversation_id && c.username == username)

/-- database.create_conversation: insert_one of a new conversation document
whose title is the first 50 characters of the first message followed by
three dots, whose message list holds just the first message, returning the
inserted id. The fresh ObjectId is modelled by the newId argument. -/
def create_conversation (db : ConversationsDB) (newId : String) (now : Nat) (username : String) (first_message : Message) : ConversationsDB × String :=
  (db ++ [{ id := newId, username := username,
            title := first_message.content.take 50 ++ "...",
            messages := [first_message], created_at := now }], newId)

/-- database.add_message_to_conversation: update_one matching on _id only (no
username filter), pushing the message onto the messages array of the first
matching document. -/
def add_message_to_conversation : ConversationsDB → String → Message → ConversationsDB
  | [], _, _ => []
  | c :: rest, conversation_id, message =>
    if c.id == conversation_id then
      { c with messages := c.messages ++ [message] } :: rest
    else
      c :: add_message_to_conversation rest conversation_id message

/-- A FastAPI HTTPException: status code plus detail string. -/
structure HTTPException where
  status_code : Nat
  detail : String
deriving DecidableEq

/-- main.get_messages endpoint: look the conversation up by id and current
username; 404 when nothing matches, otherwise the message list. -/
def get_messages (db : ConversationsDB) (conversation_id current_username : String) : Except HTTPException (List Message) :=
  match get_conversation_by_id db conversation_id current_username with
  | none => Except.error ⟨404, "Conversation not found"⟩
  | some conversation => Except.ok conversation.messages

/-- The ChatOpenAI client configuration built in main.load_llm, with the
fixed decoding configuration from the source (temperature 0.7 represented
exactly as tenths, max_tokens 512). -/
structure ChatOpenAI where
  model : String
  openai_api_key : String
  openai_api_base : String
  temperature_tenths : Nat
  max_tokens : Nat
deriving DecidableEq

/-- The ChatOpenAI construction in main.load_llm with its literal
configuration. -/
def mkChatOpenAI (key : String) : ChatOpenAI :=
  { model := "llama-3.1-8b-instant",
    openai_api_key := key,
    openai_api_base := "https://api.groq.com/openai/v1",
    temperature_tenths := 7,
    max_tokens := 512 }

/-- Whether one credential slot succeeds in main.load_llm: the environment
value must be present and non-empty (Python truthiness of os.getenv) and the
ChatOpenAI construction must not raise (modelled by the initOk oracle). -/
def credOk (initOk : String → Bool) : Option String → Bool
  | none => false
  | some s => !s.isEmpty && initOk s

/-- The loop of main.load_llm over the ordered credential list: skip falsy
keys, return on the first successful construction, catch and continue on a
construction failure, and raise ValueError (the spec's ModelUnavailableError)
once the list is exhausted. -/
def load_llm_keys (initOk : String → Bool) : List (Option String) → Except String ChatOpenAI
  | [] => Except.error "Both GROQ API keys failed or are missing. Cannot load LLM."
  | none :: rest => load_llm_keys initOk rest
  | some s :: rest =>
    if s.isEmpty then load_llm_keys initOk rest
    else if initOk s then Except.ok (mkChatOpenAI s)
    else load_llm_keys initOk rest

/-- main.load_llm: iterate over [PRIMARY_GROQ_API_KEY, FALLBACK_GROQ_API_KEY]
in that order. -/
def load_llm (primary fallback_key : Option String) (initOk : String → Bool) : Except String ChatOpenAI :=
  load_llm_keys initOk [primary, fallback_key]

/-- A retrieved document: chunk text and its source identifier (provenance
metadata attached by the indexing pipeline). -/
structure Document where
  page_content : String
  source : String
deriving DecidableEq

/-- Squared L2 distance between two integer embedding vectors (the fixed
similarity metric of the spec, over exact arithmetic). -/
def dist2 (u v : List Int) : Int :=
  (List.zipWith (fun a b => (a - b) * (a - b)) u v).foldr (· + ·) 0

/-- Ordering of scored entries by distance (first component). -/
def leFst (a b : Int × Document) : Prop := a.1 ≤ b.1

instance : DecidableRel leFst := fun a b => inferInstanceAs (Decidable (a.1 ≤ b.1))

instance : IsTotal (Int × Document) leFst := ⟨fun a b => Int.le_total a.1 b.1⟩

instance : IsTrans (Int × Document) leFst := ⟨fun _ _ _ h1 h2 => le_trans h1 h2⟩

/-- Modelled from the spec: the FAISS nearest-neighbor search used through
db.as_retriever lives in the external faiss/langchain libraries, not in this
repository. Per spec section 4.3 it returns the k entries with smallest
distance under the fixed metric, ties broken by insertion order (stable
sort), and k larger than the index size returns all entries. -/
def specSearch (entries : List (List Int × Document)) (qv : List Int) (k : Nat) : List Document :=
  (((entries.map (fun p => (dist2 qv p.1, p.2))).insertionSort leFst).take k).map Prod.snd

/-- Modelled from the spec: the loaded FAISS vector store, an embedder plus
the indexed (vector, document) entries. -/
structure VectorStore where
  embed : String → List Int
  entries : List (List Int × Document)

/-- Similarity search on the store: embed the query and take the k nearest
entries. -/
def VectorStore.search (db : VectorStore) (q : String) (k : Nat) : List Document :=
  specSearch db.entries (db.embed q) k

/-- db.as_retriever(search_kwargs={'k': 3}): the store plus the configured
number of entries to retrieve. -/
structure Retriever where
  db : VectorStore
  k : Nat

/-- The prompt template string of main.load_resources, verbatim. -/
def raw_prompt : String := "
            You are a compassionate, knowledgeable, and trustworthy medical assistant, like a kind doctor speaking directly to the patient.
            Your role is to give **accurate**, **polite**, and **helpful** medical answers based on the provided context, and to communicate in a way the patient feels understood and cared for.

            — Always respond in a warm, polite, and respectful tone, similar to how a doctor calmly explains to a patient.
            - Your task is to provide **accurate**, **concise**, and **fact-based** answers based solely on the information provided in the context.
            — If the patient's question is in Hindi, respond entirely in Hindi.
            — If it's in English, respond in English.
            — If the question is mixed (Hinglish), respond in **natural Hinglish** — use a friendly, simple mix of Hindi and English, like how people speak in daily conversation (e.g., \"aapko rest lena chahiye and you should consult a doctor immediately\", etc.).
            — Always answer every question to the best of your ability, using only the given context only.
            — Avoid robotic or overly formal tone — sound like a real, kind doctor.
            — Always try to help. If the context lacks full information, respond gently and share basic, widely accepted medical guidance.
            — Do NOT generate facts beyond the provided context unless they are basic, well-established medical facts.
            — Never hallucinate or speculate.
            — **Format your answers in short, clear, point-wise or numbered format**, so the patient can easily follow.
            — If sources are mentioned in the context, refer to them briefly and respectfully.

            ---

            Context:
            {context}

            Question:
            {question}

            ---

            Final Answer:
        "

/-- Modelled from the spec: PromptTemplate substitution of the context and
question variables into the fixed template (done by langchain outside this
repository). -/
def assemblePrompt (template context question : String) : String :=
  (template.replace "{context}" context).replace "{question}" question

/-- The RetrievalQA chain as configured in main.load_resources: the loaded
llm, the retriever, return_source_documents=True, the prompt template, and
the outbound completion call (external network, abstract). -/
structure QAChain where
  llm : ChatOpenAI
  retriever : Retriever
  return_source_documents : Bool
  prompt_template : String
  generate : String → String

/-- The dict returned by qa_chain.invoke: the generated result plus the
retrieved source documents. -/
structure QAOutput where
  result : String
  source_documents : List Document

/-- Modelled from the spec: RetrievalQA.invoke lives in langchain, outside
this repository. Per spec section 4.6 it retrieves the top-k entries for the
query, assembles the grounded prompt from the template, context and
question, calls the model, and returns the answer together with the
retrieved documents. -/
def RetrievalQA.invoke (chain : QAChain) (query : String) : QAOutput :=
  let docs := chain.retriever.db.search query chain.retriever.k
  { result := chain.generate (assemblePrompt chain.prompt_template
      (String.intercalate "\n\n" (docs.map Document.page_content)) query),
    source_documents := docs }

/-- The startup environment of main.load_resources: the two credential
environment variables, the ChatOpenAI construction oracle, and the outcomes
of the external HuggingFaceEmbeddings and FAISS.load_local calls (each
either a value or a raised exception message), plus the outbound completion
call used by the resulting chain. -/
structure StartupEnv where
  primary : Option String
  fallback_key : Option String
  initOk : String → Bool
  embeddings_load : Except String Unit
  faiss_load : Except String VectorStore
  generate : String → String

/-- main.load_resources: inside one try/except, load the llm, the
embeddings and the FAISS store and build the RetrievalQA chain with
retriever k=3 and return_source_documents=True; any exception on the way is
caught and printed, leaving qa_chain as None. -/
def load_resources (env : StartupEnv) : Option QAChain :=
  match load_llm env.primary env.fallback_key env.initOk with
  | Except.error _ => none
  | Except.ok llm =>
    match env.embeddings_load with
    | Except.error _ => none
    | Except.ok _ =>
      match env.faiss_load with
      | Except.error _ => none
      | Except.ok db =>
        some { llm := llm,
               retriever := { db := db, k := 3 },
               return_source_documents := true,
               prompt_template := raw_prompt,
               generate := env.generate }

/-- The body of a POST /chat request. -/
structure ChatRequest where
  prompt : String
  conversation_id : Option String

/-- The observable outcome of one chat_endpoint call: the conversations
collection afterwards, the HTTP response (the JSON body as an ordered list
of string fields, or an HTTPException), and the list of queries sent to the
QA chain (one entry per qa_chain.invoke call). -/
structure ChatResult where
  dbAfter : ConversationsDB
  response : Except HTTPException (List (String × String))
  model_queries : List String

/-- main.chat_endpoint: reject with 503 when qa_chain is None; otherwise
invoke the chain on the prompt, build the user and assistant messages, push
both onto the existing conversation when an id was supplied, or create a new
conversation with the user message and push the assistant message onto it,
and return the response text and the conversation id. -/
def chat_endpoint (qa_chain : Option QAChain) (db : ConversationsDB) (request : ChatRequest) (current_username newId : String) (now : Nat) : ChatResult :=
  match qa_chain with
  | none =>
    { dbAfter := db,
      response := Except.error ⟨503, "AI service is not available"⟩,
      model_queries := [] }
  | some chain =>
    let ai_response := (RetrievalQA.invoke chain request.prompt).result
    let user_message : Message := ⟨"user", request.prompt, now⟩
    let assistant_message : Message := ⟨"assistant", ai_response, now⟩
    match request.conversation_id with
    | some convo_id =>
      { dbAfter := add_message_to_conversation
          (add_message_to_conversation db convo_id user_message) convo_id assistant_message,
        response := Except.ok [("response", ai_response), ("conversation_id", convo_id)],
        model_queries := [request.prompt] }
    | none =>
      let created := create_conversation db newId now current_username user_message
      { dbAfter := add_message_to_conversation created.1 created.2 assistant_message,
        response := Except.ok [("response", ai_response), ("conversation_id", created.2)],
        model_queries := [request.prompt] }

/-- Modelled from the spec: the chunking algorithm lives in langchain's
RecursiveCharacterTextSplitter, outside this repository; memory_llm.py only
configures it with chunk_size 500 and chunk_overlap 50. Per spec section 4.1,
chunk i starts at offset i*(L-O) and the final chunk is truncated to the
remaining text. This is the recursion for a valid configuration O < L. -/
def chunkGo (L O : Nat) (h : O < L) (s : List Char) : List (List Char) :=
  if s.length = 0 then []
  else if s.length ≤ L then [s]
  else s.take L :: chunkGo L O h (s.drop (L - O))
termination_by s.length
decreasing_by
  simp only [List.length_drop]
  omega

/-- Modelled from the spec: the Chunker on a document text with target
length L and overlap O. An invalid configuration (O ≥ L) is a
ConfigurationError per spec section 4.1 and produces no chunks here; all
theorems below assume the valid case O < L. -/
def chunkText (L O : Nat) (s : List Char) : List (List Char) :=
  if h : O < L then chunkGo L O h s else []

/-- Concatenation of a list of chunks with the first O characters (the
declared overlap) of each removed. -/
def joinTail (O : Nat) (cs : List (List Char)) : List Char :=
  (cs.map (List.drop O)).flatten

/-- Concatenation of the chunks after removing the declared overlap of every
chunk but the first. -/
def joinOverlap (O : Nat) : List (List Char) → List Char
  | [] => []
  | c :: cs => c ++ joinTail O cs

/-- Whether the needle occurs as a substring of the hay. -/
def strMentions (hay needle : String) : Bool :=
  (List.range (hay.data.length + 1)).any (fun i => needle.data.isPrefixOf (hay.data.drop i))

/-- A small concrete vector store used to exercise the definitions: two
indexed chunks of one corpus document each. -/
def storeOk : VectorStore :=
  { embed := fun _ => [0, 0],
    entries := [([1, 0], ⟨"Aspirin reduces fever.", "doc1.pdf"⟩),
                ([5, 5], ⟨"Ibuprofen reduces inflammation.", "doc2.pdf"⟩)] }

/-- A startup environment in which every resource acquisition succeeds. -/
def envOk : StartupEnv :=
  { primary := some "key",
    fallback_key := none,
    initOk := fun _ => true,
    embeddings_load := Except.ok (),
    faiss_load := Except.ok storeOk,
    generate := fun _ => "ans" }

/-- The QA chain that load_resources builds from envOk. -/
def chainOk : QAChain :=
  { llm := mkChatOpenAI "key",
    retriever := { db := storeOk, k := 3 },
    return_source_documents := true,
    prompt_template := raw_prompt,
    generate := envOk.generate }

/-- A startup environment with both credential variables unset. -/
def envNoKeys : StartupEnv :=
  { primary := none,
    fallback_key := none,
    initOk := fun _ => false,
    embeddings_load := Except.ok (),
    faiss_load := Except.ok storeOk,
    generate := fun _ => "" }

/-- A startup environment in which the FAISS index load raises an
embedding-dimension incompatibility error. -/
def envBadIndex : StartupEnv :=
  { primary := some "key",
    fallback_key := none,
    initOk := fun _ => true,
    embeddings_load := Except.ok (),
    faiss_load := Except.error "dimension mismatch: index built with dim 384, embedder dim 768",
    generate := fun _ => "" }

/-- A concrete conversations collection with one conversation owned by
alice. -/
def dbAlice : ConversationsDB :=
  [{ id := "c1", username := "alice", title := "t",
     messages := [⟨"user", "hi", 0⟩], created_at := 0 }]

/-- A concrete conversation owned by alice with no messages yet. -/
def convoAlice : Conversation :=
  { id := "c9", username := "alice", title := "t", messages := [], created_at := 0 }

/-- Helper: when every credential in the list is falsy or fails to
initialize, the load_llm loop raises the exhaustion error. -/
lemma load_llm_keys_all_fail (initOk : String → Bool) :
    ∀ ks : List (Option String), (∀ x ∈ ks, credOk initOk x = false) →
      load_llm_keys initOk ks
        = Except.error "Both GROQ API keys failed or are missing. Cannot load LLM." := by
  intro ks
  induction ks with
  | nil => intro _; rfl
  | cons k rest ih =>
    intro h
    have hk := h k (List.mem_cons_self _ _)
    have hrest := fun x hx => h x (List.mem_cons_of_mem _ hx)
    cases k with
    | none => simpa [load_llm_keys] using ih hrest
    | some s =>
      cases hs : s.isEmpty with
      | true => simpa [load_llm_keys, hs] using ih hrest
      | false =>
        cases hio : initOk s with
        | false => simpa [load_llm_keys, hs, hio] using ih hrest
        | true => simp [credOk, hs, hio] at hk

/-- Helper: the load_llm loop returns the model built from the first
credential that is truthy and initializes, skipping every earlier one. -/
lemma load_llm_keys_first (initOk : String → Bool) (s : String) :
    ∀ pre post : List (Option String), (∀ x ∈ pre, credOk initOk x = false) →
      credOk initOk (some s) = true →
      load_llm_keys initOk (pre ++ some s :: post) = Except.ok (mkChatOpenAI s) := by
  intro pre
  induction pre with
  | nil =>
    intro post _ hs
    have h1 : s.isEmpty = false := by
      cases hse : s.isEmpty
      · rfl
      · simp [credOk, hse] at hs
    have h2 : initOk s = true := by
      cases hio : initOk s
      · simp [credOk, h1, hio] at hs
      · rfl
    simp [load_llm_keys, h1, h2]
  | cons k rest ih =>
    intro post hpre hs
    have hk := hpre k (List.mem_cons_self _ _)
    have hrest := fun x hx => hpre x (List.mem_cons_of_mem _ hx)
    cases k with
    | none => simpa [load_llm_keys] using ih post hrest hs
    | some t =>
      cases ht : t.isEmpty with
      | true => simpa [load_llm_keys, ht] using ih post hrest hs
      | false =>
        cases hio : initOk t with
        | false => simpa [load_llm_keys, ht, hio] using ih post hrest hs
        | true => simp [credOk, ht, hio] at hk

/-- C1: the Model Gateway (main.load_llm) attempts the ordered credential
list in order and uses the first credential that is present, non-empty and
whose ChatOpenAI initialization succeeds; when every credential is missing
or fails it raises the exhaustion ValueError (the spec's
ModelUnavailableError), which propagates to the caller as the error result
of the loop rather than being swallowed inside it. -/
theorem gateway_credential_fallback (ks : List (Option String)) (initOk : String → Bool) :
    (∀ pre s post, ks = pre ++ some s :: post →
        (∀ x ∈ pre, credOk initOk x = false) → credOk initOk (some s) = true →
        load_llm_keys initOk ks = Except.ok (mkChatOpenAI s))
    ∧ ((∀ x ∈ ks, credOk initOk x = false) →
        load_llm_keys initOk ks
          = Except.error "Both GROQ API keys failed or are missing. Cannot load LLM.") := by
  constructor
  · intro pre s post hks hpre hs
    rw [hks]
    exact load_llm_keys_first initOk s pre post hpre hs
  · exact load_llm_keys_all_fail initOk ks

/-- Witness for gateway_credential_fallback at the spec's two scenarios:
with credentials [empty, bad, good] startup succeeds using good, and with
the source's two-slot list [bad, bad] it fails with the exhaustion error. -/
theorem gateway_credential_fallback_witness :
    load_llm_keys (fun s => s == "good") [some "", some "bad", some "good"]
      = Except.ok (mkChatOpenAI "good")
    ∧ load_llm (some "bad") (some "bad") (fun s => s == "good")
      = Except.error "Both GROQ API keys failed or are missing. Cannot load LLM." :=
  ⟨(gateway_credential_fallback [some "", some "bad", some "good"] (fun s => s == "good")).1
      [some "", some "bad"] "good" [] rfl (by decide) (by decide),
   (gateway_credential_fallback [some "bad", some "bad"] (fun s => s == "good")).2 (by decide)⟩

/-- C8: fetching a conversation's messages filters on both the id and the
requesting username: a successful fetch only ever returns a conversation
owned by the requester, and when every conversation with that id belongs to
someone else the endpoint answers 404 Conversation not found, revealing no
messages. -/
theorem messages_owner_only (db : ConversationsDB) (cid u : String) :
    (∀ m, get_messages db cid u = Except.ok m →
        ∃ c, c ∈ db ∧ c.id = cid ∧ c.username = u ∧ m = c.messages)
    ∧ ((∀ c ∈ db, c.id = cid → c.username ≠ u) →
        get_messages db cid u = Except.error ⟨404, "Conversation not found"⟩) := by
  constructor
  · intro m hm
    unfold get_messages get_conversation_by_id at hm
    cases hf : db.find? (fun c => c.id == cid && c.username == u) with
    | none => rw [hf] at hm; exact absurd hm (by simp)
    | some c =>
      rw [hf] at hm
      have hmem := List.mem_of_find?_eq_some hf
      have hprop := List.find?_some hf
      simp only [Bool.and_eq_true, beq_iff_eq] at hprop
      have hmc : c.messages = m := by simpa using hm
      exact ⟨c, hmem, hprop.1, hprop.2, hmc.symm⟩
  · intro h
    unfold get_messages get_conversation_by_id
    have hnone : db.find? (fun c => c.id == cid && c.username == u) = none := by
      apply List.find?_eq_none.mpr
      intro c hc
      simp only [Bool.and_eq_true, beq_iff_eq, not_and]
      intro h1 h2
      exact h c hc h1 h2
    rw [hnone]

/-- Witness for messages_owner_only: bob requesting alice's conversation c1
gets the 404 error. -/
theorem messages_owner_only_witness :
    (∀ c ∈ dbAlice, c.id = "c1" → c.username ≠ "bob")
    ∧ get_messages dbAlice "c1" "bob" = Except.error ⟨404, "Conversation not found"⟩ :=
  ⟨by decide, (messages_owner_only dbAlice "c1" "bob").2 (by decide)⟩

/-- Helper: pushing a message onto the conversation with a given id, when no
earlier conversation in the collection has that id, updates exactly that
conversation in place. -/
lemma add_message_first (c : Conversation) (message : Message) :
    ∀ pre post : ConversationsDB, (∀ x ∈ pre, x.id ≠ c.id) →
      add_message_to_conversation (pre ++ c :: post) c.id message
        = pre ++ { c with messages := c.messages ++ [message] } :: post := by
  intro pre
  induction pre with
  | nil =>
    intro post _
    simp [add_message_to_conversation]
  | cons x rest ih =>
    intro post h
    have hx : x.id ≠ c.id := h x (List.mem_cons_self _ _)
    have hb : (x.id == c.id) = false := by simpa using hx
    simp [add_message_to_conversation, hb,
      ih post (fun y hy => h y (List.mem_cons_of_mem _ hy))]

/-- C9: a chat request without a conversation id creates a new conversation
titled with the first 50 characters of the prompt followed by three dots,
whose message list is the user message then the assistant message in that
order, and the fresh conversation id is returned to the caller. -/
theorem chat_new_conversation (chain : QAChain) (db : ConversationsDB)
    (prompt u newId : String) (now : Nat)
    (hfresh : ∀ x ∈ db, x.id ≠ newId) :
    (chat_endpoint (some chain) db ⟨prompt, none⟩ u newId now).dbAfter
      = db ++ [{ id := newId, username := u,
                 title := prompt.take 50 ++ "...",
                 messages := [⟨"user", prompt, now⟩,
                              ⟨"assistant", (RetrievalQA.invoke chain prompt).result, now⟩],
                 created_at := now }]
    ∧ (chat_endpoint (some chain) db ⟨prompt, none⟩ u newId now).response
      = Except.ok [("response", (RetrievalQA.invoke chain prompt).result),
                   ("conversation_id", newId)] := by
  have h := add_message_first
    { id := newId, username := u, title := prompt.take 50 ++ "...",
      messages := [⟨"user", prompt, now⟩], created_at := now }
    ⟨"assistant", (RetrievalQA.invoke chain prompt).result, now⟩ db [] hfresh
  constructor
  · simpa [chat_endpoint, create_conversation] using h
  · rfl

/-- Witness for chat_new_conversation on an empty collection with the
concrete chain chainOk. -/
theorem chat_new_conversation_witness :
    (∀ x ∈ ([] : ConversationsDB), x.id ≠ "id1")
    ∧ (chat_endpoint (some chainOk) [] ⟨"What reduces fever?", none⟩ "alice" "id1" 0).dbAfter
        = [{ id := "id1", username := "alice",
             title := "What reduces fever?".take 50 ++ "...",
             messages := [⟨"user", "What reduces fever?", 0⟩,
                          ⟨"assistant", (RetrievalQA.invoke chainOk "What reduces fever?").result, 0⟩],
             created_at := 0 }] :=
  ⟨by simp,
   ((chat_new_conversation chainOk [] "What reduces fever?" "alice" "id1" 0 (by simp)).1).trans
     (by simp)⟩

/-- C10: a chat request carrying an existing conversation id appends exactly
two messages, the user message then the assistant message, to that
conversation's message list; the update matches on the id alone, so this
holds for every requesting user, with no check that the conversation belongs
to the requester. -/
theorem chat_existing_conversation (chain : QAChain) (pre post : ConversationsDB)
    (c : Conversation) (prompt u newId : String) (now : Nat)
    (hfresh : ∀ x ∈ pre, x.id ≠ c.id) :
    (chat_endpoint (some chain) (pre ++ c :: post) ⟨prompt, some c.id⟩ u newId now).dbAfter
      = pre ++ { c with messages := c.messages ++
            [⟨"user", prompt, now⟩,
             ⟨"assistant", (RetrievalQA.invoke chain prompt).result, now⟩] } :: post := by
  have h1 := add_message_first c ⟨"user", prompt, now⟩ pre post hfresh
  have h2 := add_message_first
    { c with messages := c.messages ++ [⟨"user", prompt, now⟩] }
    ⟨"assistant", (RetrievalQA.invoke chain prompt).result, now⟩ pre post hfresh
  simp only [chat_endpoint, h1]
  simpa using h2

/-- Witness for chat_existing_conversation: bob posts into alice's
conversation c9 and both messages are appended to it. -/
theorem chat_existing_conversation_witness :
    (∀ x ∈ ([] : ConversationsDB), x.id ≠ convoAlice.id)
    ∧ (chat_endpoint (some chainOk) ([] ++ convoAlice :: [])
          ⟨"hi", some convoAlice.id⟩ "bob" "idX" 0).dbAfter
        = [] ++ { convoAlice with messages := convoAlice.messages ++
              [⟨"user", "hi", 0⟩,
               ⟨"assistant", (RetrievalQA.invoke chainOk "hi").result, 0⟩] } :: [] :=
  ⟨by simp,
   chat_existing_conversation chainOk [] [] convoAlice "hi" "bob" "idX" 0 (by simp)⟩

/-- C2 counterexample: with the QA chain loaded, an empty query is not
rejected: chat_endpoint raises no InvalidQueryError (it returns a normal
response) and sends exactly one query, the empty string, to the model. -/
theorem chat_empty_query_calls_model :
    (chat_endpoint (some chainOk) [] ⟨"", none⟩ "alice" "id1" 0).model_queries = [""]
    ∧ (chat_endpoint (some chainOk) [] ⟨"", none⟩ "alice" "id1" 0).response
        = Except.ok [("response", "ans"), ("conversation_id", "id1")] :=
  ⟨rfl, rfl⟩

/-- C2 amended: the chat endpoint performs no query validation: whenever the
QA chain is loaded it sends every prompt, including empty or whitespace-only
ones, to the model exactly once, and no InvalidQueryError path exists. -/
theorem chat_always_invokes_model (chain : QAChain) (db : ConversationsDB)
    (request : ChatRequest) (u newId : String) (now : Nat) :
    (chat_endpoint (some chain) db request u newId now).model_queries = [request.prompt] := by
  cases request with
  | mk prompt cid => cases cid <;> rfl

/-- C3 counterexample: for a successfully answered query the chain retrieves
source documents (doc1.pdf and doc2.pdf here), yet the response returned to
the caller holds only the generated text and the conversation id; neither
source identifier occurs anywhere in it. -/
theorem chat_response_lacks_sources :
    (RetrievalQA.invoke chainOk "What reduces fever?").source_documents
      = [⟨"Aspirin reduces fever.", "doc1.pdf"⟩, ⟨"Ibuprofen reduces inflammation.", "doc2.pdf"⟩]
    ∧ (chat_endpoint (some chainOk) [] ⟨"What reduces fever?", none⟩ "alice" "id1" 0).response
        = Except.ok [("response", "ans"), ("conversation_id", "id1")]
    ∧ strMentions "ans" "doc1.pdf" = false ∧ strMentions "ans" "doc2.pdf" = false
    ∧ strMentions "id1" "doc1.pdf" = false ∧ strMentions "id1" "doc2.pdf" = false :=
  ⟨by decide, rfl, by decide, by decide, by decide, by decide⟩

/-- C3 amended: for every request answered with the chain loaded, the
response body consists of exactly two fields: the generated text under
response and the conversation id under conversation_id. The retrieved
source documents, although produced by the chain, are not part of it. -/
theorem chat_response_shape (chain : QAChain) (db : ConversationsDB)
    (request : ChatRequest) (u newId : String) (now : Nat) :
    (chat_endpoint (some chain) db request u newId now).response
      = Except.ok [("response", (RetrievalQA.invoke chain request.prompt).result),
                   ("conversation_id", request.conversation_id.getD newId)] := by
  cases request with
  | mk prompt cid => cases cid <;> rfl

/-- Helper: load_resources yields None whenever any of the three resource
acquisitions raises. -/
lemma load_resources_fail (env : StartupEnv)
    (hfail : (∃ e, load_llm env.primary env.fallback_key env.initOk = Except.error e)
      ∨ (∃ e, env.embeddings_load = Except.error e)
      ∨ (∃ e, env.faiss_load = Except.error e)) :
    load_resources env = none := by
  unfold load_resources
  rcases hfail with ⟨e, he⟩ | ⟨e, he⟩ | ⟨e, he⟩
  · rw [he]
  · cases h1 : load_llm env.primary env.fallback_key env.initOk
    · rfl
    · rw [he]
  · cases h1 : load_llm env.primary env.fallback_key env.initOk
    · rfl
    · cases h2 : env.embeddings_load
      · rfl
      · rw [he]

/-- C6: when any AI resource acquisition at startup fails (credentials,
embeddings or index), the startup handler swallows the exception instead of
crashing, the QA chain stays unset, and every subsequent chat call is
rejected with the dedicated 503 AI service is not available error, touching
neither the database nor the model. -/
theorem startup_failure_yields_ai_unavailable (env : StartupEnv)
    (hfail : (∃ e, load_llm env.primary env.fallback_key env.initOk = Except.error e)
      ∨ (∃ e, env.embeddings_load = Except.error e)
      ∨ (∃ e, env.faiss_load = Except.error e)) :
    load_resources env = none
    ∧ ∀ (db : ConversationsDB) (request : ChatRequest) (u newId : String) (now : Nat),
        chat_endpoint (load_resources env) db request u newId now
          = { dbAfter := db,
              response := Except.error ⟨503, "AI service is not available"⟩,
              model_queries := [] } := by
  have hnone := load_resources_fail env hfail
  exact ⟨hnone, fun db request u newId now => by rw [hnone]; rfl⟩

/-- Witness for startup_failure_yields_ai_unavailable: with both credential
variables unset, startup leaves the chain unset and a chat request gets the
503 error with no model call and no database write. -/
theorem startup_failure_yields_ai_unavailable_witness :
    (∃ e, load_llm envNoKeys.primary envNoKeys.fallback_key envNoKeys.initOk = Except.error e)
    ∧ load_resources envNoKeys = none
    ∧ chat_endpoint (load_resources envNoKeys) [] ⟨"hi", none⟩ "alice" "id1" 0
        = { dbAfter := [],
            response := Except.error ⟨503, "AI service is not available"⟩,
            model_queries := [] } :=
  ⟨⟨"Both GROQ API keys failed or are missing. Cannot load LLM.", rfl⟩,
   (startup_failure_yields_ai_unavailable envNoKeys (Or.inl ⟨_, rfl⟩)).1,
   (startup_failure_yields_ai_unavailable envNoKeys (Or.inl ⟨_, rfl⟩)).2 [] ⟨"hi", none⟩ "alice" "id1" 0⟩

/-- C5 counterexample: when the persisted index load raises a
dimension-mismatch error (index dim 384 versus embedder dim 768), load does
not fail with an IndexCompatibilityError: the exception is swallowed by the
startup handler, startup completes normally with the chain unset, and the
first query gets a plain 503 AI service is not available. -/
theorem index_mismatch_no_load_error :
    load_resources envBadIndex = none
    ∧ (chat_endpoint (load_resources envBadIndex) [] ⟨"q", none⟩ "alice" "id1" 0).response
        = Except.error ⟨503, "AI service is not available"⟩ :=
  ⟨rfl, rfl⟩

/-- C5 amended: an error raised while loading the persisted index (such as
an embedding-model or dimension incompatibility surfaced by the underlying
store) never reaches any caller as a typed load-time failure:
main.load_resources catches it, the service starts with the QA chain unset,
and every query is then rejected with the 503 AI service is not available
error, so no query is ever served against the incompatible index. -/
theorem index_load_failure_swallowed (env : StartupEnv) (e : String)
    (he : env.faiss_load = Except.error e) :
    load_resources env = none
    ∧ ∀ (db : ConversationsDB) (request : ChatRequest) (u newId : String) (now : Nat),
        (chat_endpoint (load_resources env) db request u newId now).response
          = Except.error ⟨503, "AI service is not available"⟩ := by
  have hnone := load_resources_fail env (Or.inr (Or.inr ⟨e, he⟩))
  exact ⟨hnone, fun db request u newId now => by rw [hnone]; rfl⟩

/-- Witness for index_load_failure_swallowed at the concrete
dimension-mismatch environment. -/
theorem index_load_failure_swallowed_witness :
    envBadIndex.faiss_load
      = Except.error "dimension mismatch: index built with dim 384, embedder dim 768"
    ∧ load_resources envBadIndex = none :=
  ⟨rfl, (index_load_failure_swallowed envBadIndex _ rfl).1⟩

/-- Helper: every chain built by load_resources carries the retriever
configuration k = 3 from main.load_resources. -/
lemma load_resources_k (env : StartupEnv) (chain : QAChain)
    (h : load_resources env = some chain) : chain.retriever.k = 3 := by
  unfold load_resources at h
  cases h1 : load_llm env.primary env.fallback_key env.initOk <;> rw [h1] at h
  case error => exact absurd h (by simp)
  case ok llm =>
    cases h2 : env.embeddings_load <;> rw [h2] at h
    case error => exact absurd h (by simp)
    case ok =>
      cases h3 : env.faiss_load <;> rw [h3] at h
      case error => exact absurd h (by simp)
      case ok db =>
        injection h with h
        rw [← h]

/-- C7: the query path retrieves from the vector index with the default
k = 3: every chain built by load_resources carries retriever k 3, and the
documents retrieved for a query are the first three entries of a
distance-sorted reordering of the whole index — the top-3 nearest entries —
of which there are min 3 N when the index holds N entries. -/
theorem rag_topk_default_three (env : StartupEnv) (chain : QAChain) (q : String)
    (hload : load_resources env = some chain) :
    chain.retriever.k = 3
    ∧ ∃ ranked : List (Int × Document),
        List.Perm ranked (chain.retriever.db.entries.map
            (fun p => (dist2 (chain.retriever.db.embed q) p.1, p.2)))
        ∧ List.Sorted leFst ranked
        ∧ (RetrievalQA.invoke chain q).source_documents = (ranked.take 3).map Prod.snd
        ∧ (RetrievalQA.invoke chain q).source_documents.length
            = min 3 chain.retriever.db.entries.length := by
  have hk := load_resources_k env chain hload
  refine ⟨hk,
    (chain.retriever.db.entries.map
        (fun p => (dist2 (chain.retriever.db.embed q) p.1, p.2))).insertionSort leFst,
    List.perm_insertionSort _ _, List.sorted_insertionSort _ _, ?_, ?_⟩
  · show chain.retriever.db.search q chain.retriever.k = _
    rw [hk]
    rfl
  · show (chain.retriever.db.search q chain.retriever.k).length = _
    rw [hk]
    simp [VectorStore.search, specSearch, List.length_insertionSort]

/-- Witness for rag_topk_default_three: the chain built from envOk has
retriever k = 3. -/
theorem rag_topk_default_three_witness :
    load_resources envOk = some chainOk ∧ chainOk.retriever.k = 3 :=
  ⟨rfl, (rag_topk_default_three envOk chainOk "What reduces fever?" rfl).1⟩

/-- Helper: the unfolding equation of chunkGo. -/
lemma chunkGo_eq (L O : Nat) (h : O < L) (s : List Char) :
    chunkGo L O h s = if s.length = 0 then []
      else if s.length ≤ L then [s]
      else s.take L :: chunkGo L O h (s.drop (L - O)) := by
  rw [chunkGo]

/-- Helper: dropping the overlap from every chunk and concatenating yields
the document minus its first O characters. -/
lemma joinTail_chunkGo (L O : Nat) (h : O < L) :
    ∀ (n : Nat) (s : List Char), s.length ≤ n →
      joinTail O (chunkGo L O h s) = s.drop O := by
  intro n
  induction n with
  | zero =>
    intro s hs
    have hs0 : s = [] := List.length_eq_zero.mp (Nat.le_zero.mp hs)
    subst hs0
    simp [chunkGo_eq, joinTail]
  | succ n ih =>
    intro s hs
    rw [chunkGo_eq]
    by_cases h0 : s.length = 0
    · have hs0 : s = [] := List.length_eq_zero.mp h0
      subst hs0
      simp [joinTail]
    · rw [if_neg h0]
      by_cases hL : s.length ≤ L
      · rw [if_pos hL]
        simp [joinTail]
      · rw [if_neg hL]
        have hlen : (s.drop (L - O)).length ≤ n := by
          rw [List.length_drop]
          omega
        have hrec := ih (s.drop (L - O)) hlen
        have hstep : joinTail O (s.take L :: chunkGo L O h (s.drop (L - O)))
            = (s.take L).drop O ++ joinTail O (chunkGo L O h (s.drop (L - O))) := by
          simp [joinTail]
        rw [hstep, hrec, List.drop_take, List.drop_drop]
        have harith : L - O + O = L := by omega
        rw [harith]
        conv_rhs => rw [← List.take_append_drop (L - O) (s.drop O)]
        congr 1
        rw [List.drop_drop]
        congr 1
        omega

/-- Helper: chunk i of chunkGo is the L-character slice of the document
starting at offset i * (L - O). -/
lemma chunkGo_getElem (L O : Nat) (h : O < L) :
    ∀ (n : Nat) (s : List Char), s.length ≤ n → ∀ i, i < (chunkGo L O h s).length →
      (chunkGo L O h s)[i]? = some ((s.drop (i * (L - O))).take L) := by
  intro n
  induction n with
  | zero =>
    intro s hs i hi
    have hs0 : s = [] := List.length_eq_zero.mp (Nat.le_zero.mp hs)
    subst hs0
    rw [chunkGo_eq] at hi
    simp at hi
  | succ n ih =>
    intro s hs i hi
    rw [chunkGo_eq] at hi ⊢
    by_cases h0 : s.length = 0
    · rw [if_pos h0] at hi
      simp at hi
    · rw [if_neg h0] at hi ⊢
      by_cases hL : s.length ≤ L
      · rw [if_pos hL] at hi ⊢
        have hi0 : i = 0 := Nat.lt_one_iff.mp (by simpa using hi)
        subst hi0
        simp [List.take_of_length_le hL]
      · rw [if_neg hL] at hi ⊢
        cases i with
        | zero => simp
        | succ i =>
          have hlen : (s.drop (L - O)).length ≤ n := by
            rw [List.length_drop]
            omega
          have hi2 : i < (chunkGo L O h (s.drop (L - O))).length := by
            simpa using hi
          have hrec := ih (s.drop (L - O)) hlen i hi2
          simp only [List.getElem?_cons_succ]
          rw [hrec, List.drop_drop]
          have harith : L - O + i * (L - O) = (i + 1) * (L - O) := by ring
          rw [harith]

/-- C4: for every document text and valid chunk parameters O < L, the
spec-modelled Chunker produces an ordered chunk sequence in which chunk i is
the L-character slice starting at offset i * (L - O) (so the final chunk is
the truncated remainder, never padded or dropped), and concatenating the
chunks after removing the declared O-character overlap of every later chunk
reconstructs the document exactly. -/
theorem chunker_offsets_and_reconstruction (L O : Nat) (s : List Char) (h : O < L) :
    (∀ i, i < (chunkText L O s).length →
        (chunkText L O s)[i]? = some ((s.drop (i * (L - O))).take L))
    ∧ joinOverlap O (chunkText L O s) = s := by
  have hct : chunkText L O s = chunkGo L O h s := dif_pos h
  constructor
  · intro i hi
    rw [hct] at hi ⊢
    exact chunkGo_getElem L O h s.length s le_rfl i hi
  · rw [hct, chunkGo_eq]
    by_cases h0 : s.length = 0
    · rw [if_pos h0, List.length_eq_zero.mp h0]
      rfl
    · rw [if_neg h0]
      by_cases hL : s.length ≤ L
      · rw [if_pos hL]
        simp [joinOverlap, joinTail]
      · rw [if_neg hL]
        show s.take L ++ joinTail O (chunkGo L O h (s.drop (L - O))) = s
        rw [joinTail_chunkGo L O h (s.drop (L - O)).length (s.drop (L - O)) le_rfl]
        rw [List.drop_drop]
        have harith : L - O + O = L := by omega
        rw [harith, List.take_append_drop]

/-- Witness for chunker_offsets_and_reconstruction at L = 5, O = 2 on the
eight-character document abcdefgh: removing the overlaps from the produced
chunks reconstructs the document. -/
theorem chunker_offsets_and_reconstruction_witness :
    2 < 5 ∧ joinOverlap 2 (chunkText 5 2 "abcdefgh".data) = "abcdefgh".data :=
  ⟨by decide, (chunker_offsets_and_reconstruction 5 2 "abcdefgh".data (by decide)).2⟩

end MediGuide
